import Mathlib

/-!
Shallow embedding of byte-buddy-agent/src/main/c/attach_hotspot_windows.c.

Modelling conventions:
  * C strings are lists of byte values (`List Nat`); a well-formed C string
    contains no zero byte, and the terminating zero is written explicitly by
    the embedded `strcpy`.
  * The `EnqueueOperation` struct is modelled as a flat byte buffer of
    `sizeof(EnqueueOperation)` bytes (64-bit pointers: two 8-byte function
    pointers, then the char arrays, padded to an 8-byte multiple), so that
    the out-of-bounds behaviour of `strcpy` into a fixed-size field is
    represented faithfully: a copy that overruns its field spills into the
    following bytes of the struct, and a copy that overruns the whole struct
    is undefined behaviour, modelled as `none`.
  * The Win32 calls made on the remote process (`VirtualAllocEx`,
    `WriteProcessMemory`, `VirtualFreeEx`) are recorded in a trace; their
    success or failure is an environment parameter.
  * `execute_remote_attach` is modelled over the argument block it receives,
    with the two stored function pointers as function-valued fields, and it
    records every external interaction (including the `printf` and `fflush`
    calls the C code makes through normal linkage) in an event trace.
-/

/-- MAX_PATH on Windows. -/
def MAX_PATH : Nat := 260

/-- #define ENQUEUE_ERROR 0xffff -/
def ENQUEUE_ERROR : Nat := 0xffff

/-- #define CODE_SIZE 1024 -/
def CODE_SIZE : Nat := 1024

/-- A C string as a list of byte values (terminator not included). -/
abbrev CStr := List Nat

/-- Bytes of a Lean string literal (used for the literals in the C source). -/
def bytesOfString (s : String) : List Nat := s.data.map Char.toNat

/-- The string literal "jvm" copied into the library field. -/
def libraryString : CStr := bytesOfString "jvm"

/-- The string literal copied into the command field. -/
def commandString : CStr := bytesOfString "JVM_EnqueueOperation"

/-- Byte offset of the library field (after the two 8-byte function pointers). -/
def off_library : Nat := 16

/-- Byte offset of the command field. -/
def off_command : Nat := 48

/-- Byte offset of the pipe field. -/
def off_pipe : Nat := 80

/-- Byte offset of argument[i]. -/
def off_argument (i : Nat) : Nat := 340 + MAX_PATH * i

/-- sizeof(EnqueueOperation): 16 + 32 + 32 + 260 + 4*260 = 1380, padded to 1384. -/
def sizeofEnqueueOperation : Nat := 1384

/-- sizeof(HANDLE) on 64-bit Windows. -/
def sizeofHANDLE : Nat := 8

/-- Little-endian byte serialisation of a machine word of the given width. -/
def leBytes : Nat → Nat → List Nat
  | 0, _ => []
  | n + 1, v => v % 256 :: leBytes n (v / 256)

/-- The bytes at the address of a HANDLE variable holding value h. -/
def handleBytes (h : Nat) : List Nat := leBytes sizeofHANDLE h

/-- strcpy(buf + off, src): writes the bytes of src followed by a zero
terminator into the buffer starting at off. Writing past the end of the
buffer (the struct object) is undefined behaviour, modelled as none.
Overrunning a field into later bytes of the same struct is representable
and is represented. -/
def strcpyAt (buf : List Nat) (off : Nat) (src : List Nat) : Option (List Nat) :=
  if off + src.length + 1 ≤ buf.length then
    some (buf.take off ++ src ++ 0 :: buf.drop (off + src.length + 1))
  else
    none

/-- The cap bytes of the buffer that make up the field at offset off. -/
def fieldBytes (buf : List Nat) (off cap : Nat) : List Nat :=
  (buf.drop off).take cap

/-- Read a C string from raw bytes: the bytes up to the first zero;
none if no terminator is present. -/
def parseCStr : List Nat → Option CStr
  | [] => none
  | b :: rest => if b = 0 then some [] else (parseCStr rest).map (fun t => b :: t)

/-- Reparse the string stored in the field at offset off with capacity cap. -/
def parseField (buf : List Nat) (off cap : Nat) : Option CStr :=
  parseCStr (fieldBytes buf off cap)

/-- The sequence of strcpy calls populating the local EnqueueOperation in
allocate_remote_argument, in source order: library, command, pipe,
argument[0..3]. The pipe is copied with no NULL guard, so a NULL pipe is
undefined behaviour (none); each NULL argument is replaced by "". init is
the (uninitialised) local struct memory. -/
def buildBlock (init : List Nat) (pipe : Option CStr)
    (argument0 argument1 argument2 argument3 : Option CStr) : Option (List Nat) :=
  (strcpyAt init off_library libraryString).bind fun b1 =>
  (strcpyAt b1 off_command commandString).bind fun b2 =>
  (match pipe with
   | none => none
   | some p => strcpyAt b2 off_pipe p).bind fun b3 =>
  (strcpyAt b3 (off_argument 0) (argument0.getD [])).bind fun b4 =>
  (strcpyAt b4 (off_argument 1) (argument1.getD [])).bind fun b5 =>
  (strcpyAt b5 (off_argument 2) (argument2.getD [])).bind fun b6 =>
  strcpyAt b6 (off_argument 3) (argument3.getD [])

/-- A Win32 call performed on the remote process. -/
inductive RemoteCall where
  | virtualAllocEx (size : Nat)
  | writeProcessMemory (addr : Nat) (bytes : List Nat)
  | virtualFreeEx (addr : Nat) (size : Nat)
deriving DecidableEq

/-- Outcome of the remote-process primitives for one invocation:
the address VirtualAllocEx returns (none = NULL) and whether
WriteProcessMemory succeeds. -/
structure RemoteEnv where
  allocResult : Option Nat
  writeOk : Bool

/-- allocate_remote_argument: populates the local EnqueueOperation (none on
undefined behaviour of the strcpy sequence), then VirtualAllocEx of
sizeof(EnqueueOperation); on NULL returns NULL; otherwise
WriteProcessMemory(process, allocation, &process, sizeof(process), NULL) —
the source writes the sizeof(HANDLE) bytes of the local process variable,
not the operation block — and on write failure
VirtualFreeEx(process, NULL, sizeof(EnqueueOperation), MEM_RELEASE) — the
source frees address NULL, not the allocation — then returns NULL.
Returns the result pointer together with the trace of remote calls. -/
def allocate_remote_argument (env : RemoteEnv) (process : Nat) (init : List Nat)
    (pipe : Option CStr) (argument0 argument1 argument2 argument3 : Option CStr) :
    Option (Option Nat × List RemoteCall) :=
  (buildBlock init pipe argument0 argument1 argument2 argument3).map fun _block =>
    match env.allocResult with
    | none => (none, [RemoteCall.virtualAllocEx sizeofEnqueueOperation])
    | some addr =>
      if env.writeOk then
        (some addr,
         [RemoteCall.virtualAllocEx sizeofEnqueueOperation,
          RemoteCall.writeProcessMemory addr (handleBytes process)])
      else
        (none,
         [RemoteCall.virtualAllocEx sizeofEnqueueOperation,
          RemoteCall.writeProcessMemory addr (handleBytes process),
          RemoteCall.virtualFreeEx 0 sizeofEnqueueOperation])

/-- allocate_code: VirtualAllocEx of CODE_SIZE bytes; on NULL returns NULL;
otherwise WriteProcessMemory of the CODE_SIZE bytes at execute_remote_attach
(the parameter stub); on write failure
VirtualFreeEx(process, NULL, CODE_SIZE, MEM_RELEASE) — the source frees
address NULL, not the allocation — then returns NULL. -/
def allocate_code (env : RemoteEnv) (stub : List Nat) : Option Nat × List RemoteCall :=
  match env.allocResult with
  | none => (none, [RemoteCall.virtualAllocEx CODE_SIZE])
  | some addr =>
    if env.writeOk then
      (some addr,
       [RemoteCall.virtualAllocEx CODE_SIZE,
        RemoteCall.writeProcessMemory addr stub])
    else
      (none,
       [RemoteCall.virtualAllocEx CODE_SIZE,
        RemoteCall.writeProcessMemory addr stub,
        RemoteCall.virtualFreeEx 0 CODE_SIZE])

/-- The first WriteProcessMemory payload in a remote-call trace. -/
def writtenBytes : List RemoteCall → Option (List Nat)
  | [] => none
  | RemoteCall.writeProcessMemory _ bs :: _ => some bs
  | _ :: rest => writtenBytes rest

/-- The addresses passed to VirtualFreeEx in a remote-call trace. -/
def freedAddrs : List RemoteCall → List Nat
  | [] => []
  | RemoteCall.virtualFreeEx a _ :: rest => a :: freedAddrs rest
  | _ :: rest => freedAddrs rest

/-- JVM_EnqueueOperation_t: five string arguments, 32-bit int result
(modelled as the 32-bit bit pattern). -/
abbrev EntryFn := CStr → CStr → CStr → CStr → CStr → Nat

/-- The argument block as execute_remote_attach reads it: the two stored
function pointers (as the functions they point to) and the string fields. -/
structure OpBlock where
  getModuleHandleA : CStr → Option Nat
  getProcAddress : Nat → CStr → Option EntryFn
  library : CStr
  command : CStr
  pipe : CStr
  argument : Fin 4 → CStr

/-- One external interaction of the stub routine. The first two are calls
resolved through the injecting process (normal linkage: the printf string
literal and the stdout global); the last three go through pointers held in
the argument block. -/
inductive StubEvent where
  | printfLiteral (s : List Nat)
  | fflushStdout
  | callGetModuleHandle (name : CStr)
  | callGetProcAddress (moduleHandle : Nat) (name : CStr)
  | callEntry (a0 a1 a2 a3 p : CStr)
deriving DecidableEq

/-- Whether a stub event is an access through the argument block (a call via
a function pointer stored in the block) rather than through the injecting
process's own linkage. -/
def throughBlock : StubEvent → Bool
  | StubEvent.printfLiteral _ => false
  | StubEvent.fflushStdout => false
  | StubEvent.callGetModuleHandle _ => true
  | StubEvent.callGetProcAddress _ _ => true
  | StubEvent.callEntry _ _ _ _ _ => true

/-- The string literal the stub passes to printf. -/
def printfLiteralBytes : List Nat := bytesOfString "execute_remote_attach"

/-- execute_remote_attach: printf("execute_remote_attach"); fflush(stdout);
then operation->GetModuleHandleA(operation->library); if NULL return
ENQUEUE_ERROR; else operation->GetProcAddress(library, operation->command);
if NULL return ENQUEUE_ERROR; else return (DWORD) of the entry point applied
to argument[0..3] and pipe. Returns the DWORD result with the event trace. -/
def execute_remote_attach (op : OpBlock) : Nat × List StubEvent :=
  let pre : List StubEvent :=
    [StubEvent.printfLiteral printfLiteralBytes, StubEvent.fflushStdout]
  match op.getModuleHandleA op.library with
  | none => (ENQUEUE_ERROR, pre ++ [StubEvent.callGetModuleHandle op.library])
  | some lib =>
    match op.getProcAddress lib op.command with
    | none =>
      (ENQUEUE_ERROR,
       pre ++ [StubEvent.callGetModuleHandle op.library,
               StubEvent.callGetProcAddress lib op.command])
    | some f =>
      (f (op.argument 0) (op.argument 1) (op.argument 2) (op.argument 3) op.pipe % 2 ^ 32,
       pre ++ [StubEvent.callGetModuleHandle op.library,
               StubEvent.callGetProcAddress lib op.command,
               StubEvent.callEntry (op.argument 0) (op.argument 1) (op.argument 2)
                 (op.argument 3) op.pipe])

/-- An arbitrary concrete uninitialised local struct memory (nonzero junk),
of sizeof(EnqueueOperation) bytes. -/
def junkStack : List Nat := List.replicate sizeofEnqueueOperation 170

/-- A concrete pipe string of 300 bytes, exceeding the MAX_PATH capacity of
the pipe field. -/
def pipeOverflow : CStr := List.replicate 300 97

/-- An arbitrary concrete stand-in for the CODE_SIZE bytes of machine code at
execute_remote_attach. -/
def stubBytes : List Nat := List.replicate CODE_SIZE 144

/-- An optional string argument that fits its MAX_PATH field: its value (or ""
when absent) is shorter than the capacity and has no embedded zero byte. -/
def optFits (a : Option CStr) : Prop :=
  (a.getD []).length < MAX_PATH ∧ 0 ∉ a.getD []

/-- A concrete argument block whose module lookup fails. -/
def opNoModule : OpBlock :=
  ⟨fun _ => none, fun _ _ => none, libraryString, commandString, [112], fun _ => []⟩

/-- A concrete argument block whose lookups succeed and whose entry point
returns 7. -/
def opResolved : OpBlock :=
  ⟨fun _ => some 1, fun _ _ => some (fun _ _ _ _ _ => 7),
   libraryString, commandString, [112], fun _ => []⟩

/-- A concrete argument block whose lookups succeed and whose entry point
returns the value 0xffff. -/
def opCollide : OpBlock :=
  ⟨fun _ => some 1, fun _ _ => some (fun _ _ _ _ _ => ENQUEUE_ERROR),
   libraryString, commandString, [112], fun _ => []⟩

set_option maxRecDepth 1000000

/-- Characterisation of a successful strcpyAt. -/
theorem strcpyAt_eq_some {buf : List Nat} {off : Nat} {src : List Nat} {out : List Nat}
    (h : strcpyAt buf off src = some out) :
    off + src.length + 1 ≤ buf.length ∧
      out = buf.take off ++ src ++ 0 :: buf.drop (off + src.length + 1) := by
  unfold strcpyAt at h
  split at h
  · refine ⟨by assumption, ?_⟩
    exact (Option.some.inj h).symm
  · exact absurd h (by simp)

/-- strcpyAt succeeds whenever the copy stays within the buffer. -/
theorem strcpyAt_isSome {buf : List Nat} {off : Nat} {src : List Nat}
    (h : off + src.length + 1 ≤ buf.length) :
    strcpyAt buf off src =
      some (buf.take off ++ src ++ 0 :: buf.drop (off + src.length + 1)) := by
  unfold strcpyAt
  simp [h]

/-- A successful strcpyAt preserves the buffer length. -/
theorem strcpyAt_length {buf : List Nat} {off : Nat} {src : List Nat} {out : List Nat}
    (h : strcpyAt buf off src = some out) : out.length = buf.length := by
  obtain ⟨hle, rfl⟩ := strcpyAt_eq_some h
  simp [List.length_append, List.length_take, List.length_drop]
  omega

/-- Reading a zero-free string up to its terminator recovers the string. -/
theorem parseCStr_append_zero {src t : List Nat} (h : 0 ∉ src) :
    parseCStr (src ++ 0 :: t) = some src := by
  induction src with
  | nil => simp [parseCStr]
  | cons b bs ih =>
    have hb : b ≠ 0 := fun hb => h (hb ▸ List.mem_cons_self b bs)
    have hbs : 0 ∉ bs := fun hm => h (List.mem_cons_of_mem b hm)
    simp [parseCStr, hb, ih hbs]

/-- The field a strcpyAt just wrote to holds the string, its terminator, and
the untouched tail of the field. -/
theorem fieldBytes_strcpyAt_self {buf : List Nat} {off : Nat} {src : List Nat} {out : List Nat}
    {cap : Nat} (h : strcpyAt buf off src = some out) (hcap : src.length < cap) :
    fieldBytes out off cap =
      src ++ 0 :: (buf.drop (off + src.length + 1)).take (cap - src.length - 1) := by
  obtain ⟨hle, rfl⟩ := strcpyAt_eq_some h
  have hofflen : (buf.take off).length = off := by
    simp [List.length_take]; omega
  unfold fieldBytes
  rw [List.append_assoc, List.drop_left' hofflen, List.take_append_eq_append_take,
      List.take_of_length_le (le_of_lt hcap)]
  congr 1
  have : cap - src.length = (cap - src.length - 1) + 1 := by omega
  rw [this]
  simp [List.take_succ_cons]

/-- Reparsing the field a strcpyAt just wrote recovers the copied string. -/
theorem parseField_strcpyAt_self {buf : List Nat} {off : Nat} {src : List Nat} {out : List Nat}
    {cap : Nat} (h : strcpyAt buf off src = some out) (hcap : src.length < cap)
    (hz : 0 ∉ src) : parseField out off cap = some src := by
  unfold parseField
  rw [fieldBytes_strcpyAt_self h hcap, parseCStr_append_zero hz]

/-- A strcpyAt at a higher offset leaves a lower field untouched. -/
theorem fieldBytes_strcpyAt_of_le {buf : List Nat} {off2 : Nat} {src : List Nat}
    {out : List Nat} {off1 cap : Nat} (h : strcpyAt buf off2 src = some out)
    (hle : off1 + cap ≤ off2) : fieldBytes out off1 cap = fieldBytes buf off1 cap := by
  obtain ⟨hok, rfl⟩ := strcpyAt_eq_some h
  have hofflen : (buf.take off2).length = off2 := by
    simp [List.length_take]; omega
  unfold fieldBytes
  rw [List.append_assoc, List.drop_append_eq_append_drop, List.take_append_eq_append_take]
  have h1 : ((buf.take off2).drop off1).length = off2 - off1 := by
    simp [List.length_drop, hofflen]
  rw [h1, hofflen]
  have h2 : cap - (off2 - off1) = 0 := by omega
  have h3 : off1 - off2 = 0 := by omega
  rw [h2, h3, List.take_zero, List.append_nil, List.drop_take, List.take_take]
  have : min cap (off2 - off1) = cap := by omega
  rw [this]

/-- A strcpyAt at a higher offset leaves the parse of a lower field unchanged. -/
theorem parseField_strcpyAt_of_le {buf : List Nat} {off2 : Nat} {src : List Nat}
    {out : List Nat} {off1 cap : Nat} (h : strcpyAt buf off2 src = some out)
    (hle : off1 + cap ≤ off2) : parseField out off1 cap = parseField buf off1 cap := by
  unfold parseField
  rw [fieldBytes_strcpyAt_of_le h hle]

/-- Every strcpy step of buildBlock succeeds when each copy stays within the
struct object (no per-field capacity condition), and the resulting block
round-trips: each field, reparsed from the block bytes, gives back the copied
string, provided each string is shorter than its field capacity and zero-free. -/
theorem buildBlock_spec {init : List Nat} {p : CStr} {a0 a1 a2 a3 : Option CStr}
    (hinit : init.length = sizeofEnqueueOperation)
    (hp : p.length < MAX_PATH) (hpz : 0 ∉ p)
    (h0 : (a0.getD []).length < MAX_PATH) (h0z : 0 ∉ a0.getD [])
    (h1 : (a1.getD []).length < MAX_PATH) (h1z : 0 ∉ a1.getD [])
    (h2 : (a2.getD []).length < MAX_PATH) (h2z : 0 ∉ a2.getD [])
    (h3 : (a3.getD []).length < MAX_PATH) (h3z : 0 ∉ a3.getD []) :
    ∃ b, buildBlock init (some p) a0 a1 a2 a3 = some b ∧
      b.length = sizeofEnqueueOperation ∧
      parseField b off_library 32 = some libraryString ∧
      parseField b off_command 32 = some commandString ∧
      parseField b off_pipe MAX_PATH = some p ∧
      parseField b (off_argument 0) MAX_PATH = some (a0.getD []) ∧
      parseField b (off_argument 1) MAX_PATH = some (a1.getD []) ∧
      parseField b (off_argument 2) MAX_PATH = some (a2.getD []) ∧
      parseField b (off_argument 3) MAX_PATH = some (a3.getD []) := by
  have hMP : MAX_PATH = 260 := rfl
  have hSZ : sizeofEnqueueOperation = 1384 := rfl
  have hliblen : libraryString.length = 3 := rfl
  have hcmdlen : commandString.length = 20 := rfl
  obtain ⟨b1, e1⟩ : ∃ b, strcpyAt init off_library libraryString = some b :=
    ⟨_, strcpyAt_isSome (by rw [hliblen, hinit, hSZ]; simp [off_library])⟩
  have l1 : b1.length = 1384 := by rw [strcpyAt_length e1, hinit, hSZ]
  obtain ⟨b2, e2⟩ : ∃ b, strcpyAt b1 off_command commandString = some b :=
    ⟨_, strcpyAt_isSome (by rw [hcmdlen, l1]; simp [off_command])⟩
  have l2 : b2.length = 1384 := by rw [strcpyAt_length e2, l1]
  obtain ⟨b3, e3⟩ : ∃ b, strcpyAt b2 off_pipe p = some b :=
    ⟨_, strcpyAt_isSome (by rw [l2]; simp only [off_pipe]; omega)⟩
  have l3 : b3.length = 1384 := by rw [strcpyAt_length e3, l2]
  obtain ⟨b4, e4⟩ : ∃ b, strcpyAt b3 (off_argument 0) (a0.getD []) = some b :=
    ⟨_, strcpyAt_isSome (by rw [l3]; simp only [off_argument, hMP] at h0 ⊢; omega)⟩
  have l4 : b4.length = 1384 := by rw [strcpyAt_length e4, l3]
  obtain ⟨b5, e5⟩ : ∃ b, strcpyAt b4 (off_argument 1) (a1.getD []) = some b :=
    ⟨_, strcpyAt_isSome (by rw [l4]; simp only [off_argument, hMP] at h1 ⊢; omega)⟩
  have l5 : b5.length = 1384 := by rw [strcpyAt_length e5, l4]
  obtain ⟨b6, e6⟩ : ∃ b, strcpyAt b5 (off_argument 2) (a2.getD []) = some b :=
    ⟨_, strcpyAt_isSome (by rw [l5]; simp only [off_argument, hMP] at h2 ⊢; omega)⟩
  have l6 : b6.length = 1384 := by rw [strcpyAt_length e6, l5]
  obtain ⟨b7, e7⟩ : ∃ b, strcpyAt b6 (off_argument 3) (a3.getD []) = some b :=
    ⟨_, strcpyAt_isSome (by rw [l6]; simp only [off_argument, hMP] at h3 ⊢; omega)⟩
  have l7 : b7.length = 1384 := by rw [strcpyAt_length e7, l6]
  refine ⟨b7, ?_, by rw [l7, hSZ], ?_, ?_, ?_, ?_, ?_, ?_, ?_⟩
  · simp only [buildBlock, e1, Option.some_bind, e2, e3, e4, e5, e6, e7]
  · rw [parseField_strcpyAt_of_le e7 (by simp [off_library, off_command, off_pipe, off_argument, MAX_PATH]),
        parseField_strcpyAt_of_le e6 (by simp [off_library, off_command, off_pipe, off_argument, MAX_PATH]),
        parseField_strcpyAt_of_le e5 (by simp [off_library, off_command, off_pipe, off_argument, MAX_PATH]),
        parseField_strcpyAt_of_le e4 (by simp [off_library, off_command, off_pipe, off_argument, MAX_PATH]),
        parseField_strcpyAt_of_le e3 (by simp [off_library, off_command, off_pipe, off_argument, MAX_PATH]),
        parseField_strcpyAt_of_le e2 (by simp [off_library, off_command, off_pipe, off_argument, MAX_PATH])]
    exact parseField_strcpyAt_self e1 (by rw [hliblen]; omega) (by decide)
  · rw [parseField_strcpyAt_of_le e7 (by simp [off_library, off_command, off_pipe, off_argument, MAX_PATH]),
        parseField_strcpyAt_of_le e6 (by simp [off_library, off_command, off_pipe, off_argument, MAX_PATH]),
        parseField_strcpyAt_of_le e5 (by simp [off_library, off_command, off_pipe, off_argument, MAX_PATH]),
        parseField_strcpyAt_of_le e4 (by simp [off_library, off_command, off_pipe, off_argument, MAX_PATH]),
        parseField_strcpyAt_of_le e3 (by simp [off_library, off_command, off_pipe, off_argument, MAX_PATH])]
    exact parseField_strcpyAt_self e2 (by rw [hcmdlen]; omega) (by decide)
  · rw [parseField_strcpyAt_of_le e7 (by simp [off_library, off_command, off_pipe, off_argument, MAX_PATH]),
        parseField_strcpyAt_of_le e6 (by simp [off_library, off_command, off_pipe, off_argument, MAX_PATH]),
        parseField_strcpyAt_of_le e5 (by simp [off_library, off_command, off_pipe, off_argument, MAX_PATH]),
        parseField_strcpyAt_of_le e4 (by simp [off_library, off_command, off_pipe, off_argument, MAX_PATH])]
    exact parseField_strcpyAt_self e3 hp hpz
  · rw [parseField_strcpyAt_of_le e7 (by simp [off_argument, MAX_PATH]),
        parseField_strcpyAt_of_le e6 (by simp [off_argument, MAX_PATH]),
        parseField_strcpyAt_of_le e5 (by simp [off_argument, MAX_PATH])]
    exact parseField_strcpyAt_self e4 h0 h0z
  · rw [parseField_strcpyAt_of_le e7 (by simp [off_argument, MAX_PATH]),
        parseField_strcpyAt_of_le e6 (by simp [off_argument, MAX_PATH])]
    exact parseField_strcpyAt_self e5 h1 h1z
  · rw [parseField_strcpyAt_of_le e7 (by simp [off_argument, MAX_PATH])]
    exact parseField_strcpyAt_self e6 h2 h2z
  · exact parseField_strcpyAt_self e7 h3 h3z

/-- The strcpy sequence of allocate_remote_argument succeeds whenever each
copy stays within the struct object, even when a string exceeds its own
field's capacity. -/
theorem buildBlock_isSome {init : List Nat} {p : CStr} {a0 a1 a2 a3 : Option CStr}
    (hinit : init.length = sizeofEnqueueOperation)
    (hp : off_pipe + p.length + 1 ≤ sizeofEnqueueOperation)
    (h0 : off_argument 0 + (a0.getD []).length + 1 ≤ sizeofEnqueueOperation)
    (h1 : off_argument 1 + (a1.getD []).length + 1 ≤ sizeofEnqueueOperation)
    (h2 : off_argument 2 + (a2.getD []).length + 1 ≤ sizeofEnqueueOperation)
    (h3 : off_argument 3 + (a3.getD []).length + 1 ≤ sizeofEnqueueOperation) :
    ∃ b, buildBlock init (some p) a0 a1 a2 a3 = some b := by
  have hSZ : sizeofEnqueueOperation = 1384 := rfl
  obtain ⟨b1, e1⟩ : ∃ b, strcpyAt init off_library libraryString = some b :=
    ⟨_, strcpyAt_isSome (by rw [hinit, hSZ]; simp [off_library, libraryString, bytesOfString])⟩
  have l1 : b1.length = 1384 := by rw [strcpyAt_length e1, hinit, hSZ]
  obtain ⟨b2, e2⟩ : ∃ b, strcpyAt b1 off_command commandString = some b :=
    ⟨_, strcpyAt_isSome (by rw [l1]; simp [off_command, commandString, bytesOfString])⟩
  have l2 : b2.length = 1384 := by rw [strcpyAt_length e2, l1]
  obtain ⟨b3, e3⟩ : ∃ b, strcpyAt b2 off_pipe p = some b :=
    ⟨_, strcpyAt_isSome (by rw [l2]; rw [hSZ] at hp; exact hp)⟩
  have l3 : b3.length = 1384 := by rw [strcpyAt_length e3, l2]
  obtain ⟨b4, e4⟩ : ∃ b, strcpyAt b3 (off_argument 0) (a0.getD []) = some b :=
    ⟨_, strcpyAt_isSome (by rw [l3]; rw [hSZ] at h0; exact h0)⟩
  have l4 : b4.length = 1384 := by rw [strcpyAt_length e4, l3]
  obtain ⟨b5, e5⟩ : ∃ b, strcpyAt b4 (off_argument 1) (a1.getD []) = some b :=
    ⟨_, strcpyAt_isSome (by rw [l4]; rw [hSZ] at h1; exact h1)⟩
  have l5 : b5.length = 1384 := by rw [strcpyAt_length e5, l4]
  obtain ⟨b6, e6⟩ : ∃ b, strcpyAt b5 (off_argument 2) (a2.getD []) = some b :=
    ⟨_, strcpyAt_isSome (by rw [l5]; rw [hSZ] at h2; exact h2)⟩
  have l6 : b6.length = 1384 := by rw [strcpyAt_length e6, l5]
  obtain ⟨b7, e7⟩ : ∃ b, strcpyAt b6 (off_argument 3) (a3.getD []) = some b :=
    ⟨_, strcpyAt_isSome (by rw [l6]; rw [hSZ] at h3; exact h3)⟩
  refine ⟨b7, ?_⟩
  simp only [buildBlock, e1, Option.some_bind, e2, e3, e4, e5, e6, e7]

/-- Claim C1: the bytes of the populated EnqueueOperation block are copied
byte-for-byte into the target process, so reparsing the written bytes
reproduces the pipe and the four arguments. The code does not do this: for a
valid input (pipe "p", all four arguments NULL, process handle 0x1234,
allocation at 0x1000, write succeeding), the WriteProcessMemory payload is
the sizeof(HANDLE) bytes of the local process variable, from which the pipe
field cannot be reparsed at all. -/
theorem C1_remote_write_is_process_handle :
    allocate_remote_argument ⟨some 4096, true⟩ 4660 junkStack (some [112]) none none none none
      = some (some 4096,
          [RemoteCall.virtualAllocEx sizeofEnqueueOperation,
           RemoteCall.writeProcessMemory 4096 (handleBytes 4660)])
    ∧ (handleBytes 4660).length = sizeofHANDLE
    ∧ parseField (handleBytes 4660) off_pipe MAX_PATH = none :=
  ⟨by decide, by decide, by decide⟩

/-- Claim C2 (counterexample): the claim says that a string argument longer
than its field capacity makes the builder reject with a validation error
before any cross-process operation. Witnessed here as false: with a pipe of
300 bytes (capacity MAX_PATH = 260), allocate_remote_argument performs the
remote allocation and the remote write and returns the allocation. -/
theorem C2_counterexample_overlong_pipe_not_rejected :
    MAX_PATH < pipeOverflow.length
    ∧ allocate_remote_argument ⟨some 4096, true⟩ 4660 junkStack
        (some pipeOverflow) none none none none
      = some (some 4096,
          [RemoteCall.virtualAllocEx sizeofEnqueueOperation,
           RemoteCall.writeProcessMemory 4096 (handleBytes 4660)]) :=
  ⟨by decide, by decide⟩

/-- Claim C2 (amended): the builder performs no capacity validation at all:
whenever each strcpy stays within the struct object — including inputs whose
strings exceed their own field's capacity — construction proceeds and the
first cross-process operation, the VirtualAllocEx of the block, is attempted
unconditionally. -/
theorem C2_no_capacity_validation {init : List Nat} {p : CStr} {a0 a1 a2 a3 : Option CStr}
    (env : RemoteEnv) (proc : Nat)
    (hinit : init.length = sizeofEnqueueOperation)
    (hp : off_pipe + p.length + 1 ≤ sizeofEnqueueOperation)
    (h0 : off_argument 0 + (a0.getD []).length + 1 ≤ sizeofEnqueueOperation)
    (h1 : off_argument 1 + (a1.getD []).length + 1 ≤ sizeofEnqueueOperation)
    (h2 : off_argument 2 + (a2.getD []).length + 1 ≤ sizeofEnqueueOperation)
    (h3 : off_argument 3 + (a3.getD []).length + 1 ≤ sizeofEnqueueOperation) :
    ∃ res tr, allocate_remote_argument env proc init (some p) a0 a1 a2 a3 = some (res, tr)
      ∧ tr.head? = some (RemoteCall.virtualAllocEx sizeofEnqueueOperation) := by
  obtain ⟨b, hb⟩ := buildBlock_isSome hinit hp h0 h1 h2 h3
  rcases env with ⟨alloc, wok⟩
  cases alloc with
  | none =>
    exact ⟨none, [RemoteCall.virtualAllocEx sizeofEnqueueOperation],
      by simp [allocate_remote_argument, hb], rfl⟩
  | some addr =>
    cases wok with
    | false =>
      exact ⟨none,
        [RemoteCall.virtualAllocEx sizeofEnqueueOperation,
         RemoteCall.writeProcessMemory addr (handleBytes proc),
         RemoteCall.virtualFreeEx 0 sizeofEnqueueOperation],
        by simp [allocate_remote_argument, hb], rfl⟩
    | true =>
      exact ⟨some addr,
        [RemoteCall.virtualAllocEx sizeofEnqueueOperation,
         RemoteCall.writeProcessMemory addr (handleBytes proc)],
        by simp [allocate_remote_argument, hb], rfl⟩

/-- Witness for the amended C2 theorem at the concrete over-capacity pipe of
300 bytes: construction is not rejected and the remote allocation is the
first operation attempted. -/
theorem C2_no_capacity_validation_witness :
    ∃ res tr, allocate_remote_argument ⟨some 4096, true⟩ 4660 junkStack
        (some pipeOverflow) none none none none = some (res, tr)
      ∧ tr.head? = some (RemoteCall.virtualAllocEx sizeofEnqueueOperation) :=
  C2_no_capacity_validation ⟨some 4096, true⟩ 4660 (by decide) (by decide)
    (by decide) (by decide) (by decide) (by decide)

/-- Claim C3: when remote allocation succeeds but the subsequent copy fails,
the claim says the just-allocated region is freed at its allocated address.
The code instead passes NULL to VirtualFreeEx in both allocate_code and
allocate_remote_argument: with allocation at address 4096 and a failing
write, the only freed address in either trace is 0, not 4096, so the
allocated region is leaked. -/
theorem C3_failed_write_frees_null_address :
    allocate_code ⟨some 4096, false⟩ stubBytes
      = (none, [RemoteCall.virtualAllocEx CODE_SIZE,
                RemoteCall.writeProcessMemory 4096 stubBytes,
                RemoteCall.virtualFreeEx 0 CODE_SIZE])
    ∧ freedAddrs (allocate_code ⟨some 4096, false⟩ stubBytes).2 = [0]
    ∧ allocate_remote_argument ⟨some 4096, false⟩ 4660 junkStack
        (some [112]) none none none none
      = some (none,
          [RemoteCall.virtualAllocEx sizeofEnqueueOperation,
           RemoteCall.writeProcessMemory 4096 (handleBytes 4660),
           RemoteCall.virtualFreeEx 0 sizeofEnqueueOperation])
    ∧ (allocate_remote_argument ⟨some 4096, false⟩ 4660 junkStack
        (some [112]) none none none none).map (fun r => freedAddrs r.2) = some [0] :=
  ⟨by decide, by decide, by decide, by decide⟩

/-- Claim C4: when the module lookup through the block's first function
pointer returns NULL, or the symbol lookup through the second returns NULL,
execute_remote_attach returns the sentinel ENQUEUE_ERROR (0xffff). -/
theorem C4_lookup_failure_returns_sentinel (op : OpBlock)
    (h : op.getModuleHandleA op.library = none ∨
         ∃ m, op.getModuleHandleA op.library = some m ∧
              op.getProcAddress m op.command = none) :
    (execute_remote_attach op).1 = ENQUEUE_ERROR := by
  simp only [execute_remote_attach]
  rcases h with h | ⟨m, hm, hpa⟩
  · simp [h]
  · simp [hm, hpa]

/-- Witness for C4 at a concrete block whose module lookup fails. -/
theorem C4_lookup_failure_returns_sentinel_witness :
    (execute_remote_attach opNoModule).1 = ENQUEUE_ERROR :=
  C4_lookup_failure_returns_sentinel opNoModule (Or.inl rfl)

/-- Claim C5: when both lookups resolve, execute_remote_attach calls the
resolved entry point with the block's four arguments followed by the pipe,
and returns the entry point's (32-bit) return value unmodified. -/
theorem C5_entry_result_returned_unmodified (op : OpBlock) (m : Nat) (f : EntryFn)
    (hm : op.getModuleHandleA op.library = some m)
    (hf : op.getProcAddress m op.command = some f)
    (hlt : f (op.argument 0) (op.argument 1) (op.argument 2) (op.argument 3) op.pipe < 2 ^ 32) :
    (execute_remote_attach op).1
        = f (op.argument 0) (op.argument 1) (op.argument 2) (op.argument 3) op.pipe
      ∧ StubEvent.callEntry (op.argument 0) (op.argument 1) (op.argument 2) (op.argument 3)
          op.pipe ∈ (execute_remote_attach op).2 := by
  simp only [execute_remote_attach]
  simp only [hm, hf]
  refine ⟨Nat.mod_eq_of_lt hlt, ?_⟩
  simp

/-- Witness for C5 at a concrete block whose lookups succeed and whose entry
point returns 7. -/
theorem C5_entry_result_returned_unmodified_witness :
    (execute_remote_attach opResolved).1 = 7
    ∧ StubEvent.callEntry [] [] [] [] [112] ∈ (execute_remote_attach opResolved).2 :=
  C5_entry_result_returned_unmodified opResolved 1 (fun _ _ _ _ _ => 7) rfl rfl (by decide)

/-- Claim C6: the stub routine performs no external call and touches no
global or literal outside the argument block. The code does: on every
invocation, whatever the block contains, the first two external interactions
are a printf of the injecting process's string literal and a flush of its
stdout, both resolved through normal linkage, not through a function pointer
stored in the block. -/
theorem C6_stub_calls_outside_block (op : OpBlock) :
    (execute_remote_attach op).2.head? = some (StubEvent.printfLiteral printfLiteralBytes)
    ∧ StubEvent.fflushStdout ∈ (execute_remote_attach op).2
    ∧ throughBlock (StubEvent.printfLiteral printfLiteralBytes) = false
    ∧ throughBlock StubEvent.fflushStdout = false := by
  simp only [execute_remote_attach]
  cases h1 : op.getModuleHandleA op.library with
  | none => simp [throughBlock]
  | some lib =>
    cases h2 : op.getProcAddress lib op.command <;> simp [h2, throughBlock]

/-- Claim C7: each of the four optional string arguments that is passed as
NULL is stored in the block as the empty string, and the four argument
fields are always populated: each reparses to the given argument, with "" in
place of an absent one. -/
theorem C7_absent_arguments_become_empty_strings {init : List Nat} {p : CStr}
    {a0 a1 a2 a3 : Option CStr}
    (hinit : init.length = sizeofEnqueueOperation)
    (hp : p.length < MAX_PATH) (hpz : 0 ∉ p)
    (h0 : optFits a0) (h1 : optFits a1) (h2 : optFits a2) (h3 : optFits a3) :
    ∃ b, buildBlock init (some p) a0 a1 a2 a3 = some b ∧
      parseField b (off_argument 0) MAX_PATH = some (a0.getD []) ∧
      parseField b (off_argument 1) MAX_PATH = some (a1.getD []) ∧
      parseField b (off_argument 2) MAX_PATH = some (a2.getD []) ∧
      parseField b (off_argument 3) MAX_PATH = some (a3.getD []) := by
  obtain ⟨b, hb, _, _, _, _, f0, f1, f2, f3⟩ :=
    buildBlock_spec hinit hp hpz h0.1 h0.2 h1.1 h1.2 h2.1 h2.2 h3.1 h3.2
  exact ⟨b, hb, f0, f1, f2, f3⟩

/-- Witness for C7 at a concrete input with all four arguments NULL: each
argument field of the built block reparses to the empty string. -/
theorem C7_absent_arguments_become_empty_strings_witness :
    ∃ b, buildBlock junkStack (some [112]) none none none none = some b ∧
      parseField b (off_argument 0) MAX_PATH = some [] ∧
      parseField b (off_argument 1) MAX_PATH = some [] ∧
      parseField b (off_argument 2) MAX_PATH = some [] ∧
      parseField b (off_argument 3) MAX_PATH = some [] :=
  C7_absent_arguments_become_empty_strings (by decide) (by decide) (by decide)
    ⟨by decide, by decide⟩ ⟨by decide, by decide⟩ ⟨by decide, by decide⟩
    ⟨by decide, by decide⟩

/-- Claim C8 (counterexample): the claim says every block the builder
produces has each string field null-terminated within its capacity. False:
the builder accepts a 300-byte pipe (capacity 260) and produces a block
whose pipe field contains no terminator within its 260 bytes. -/
theorem C8_counterexample_overlong_pipe_unterminated :
    MAX_PATH < pipeOverflow.length
    ∧ (buildBlock junkStack (some pipeOverflow) none none none none).map
        (fun b => parseField b off_pipe MAX_PATH) = some none :=
  ⟨by decide, by decide⟩

/-- Claim C8 (amended): for every input whose strings each fit their field
(shorter than the capacity, no embedded zero), the built block satisfies the
invariant: each of the seven string fields is null-terminated within its
fixed capacity. The builder does not itself enforce the fit: for an
over-capacity input (see the counterexample) the invariant fails. -/
theorem C8_fitting_inputs_fields_terminated {init : List Nat} {p : CStr}
    {a0 a1 a2 a3 : Option CStr}
    (hinit : init.length = sizeofEnqueueOperation)
    (hp : p.length < MAX_PATH) (hpz : 0 ∉ p)
    (h0 : optFits a0) (h1 : optFits a1) (h2 : optFits a2) (h3 : optFits a3) :
    ∃ b, buildBlock init (some p) a0 a1 a2 a3 = some b ∧
      (parseField b off_library 32).isSome = true ∧
      (parseField b off_command 32).isSome = true ∧
      (parseField b off_pipe MAX_PATH).isSome = true ∧
      (parseField b (off_argument 0) MAX_PATH).isSome = true ∧
      (parseField b (off_argument 1) MAX_PATH).isSome = true ∧
      (parseField b (off_argument 2) MAX_PATH).isSome = true ∧
      (parseField b (off_argument 3) MAX_PATH).isSome = true := by
  obtain ⟨b, hb, _, fl, fc, fp, f0, f1, f2, f3⟩ :=
    buildBlock_spec hinit hp hpz h0.1 h0.2 h1.1 h1.2 h2.1 h2.2 h3.1 h3.2
  exact ⟨b, hb, by rw [fl]; rfl, by rw [fc]; rfl, by rw [fp]; rfl,
    by rw [f0]; rfl, by rw [f1]; rfl, by rw [f2]; rfl, by rw [f3]; rfl⟩

/-- Witness for the amended C8 theorem at a concrete fitting input. -/
theorem C8_fitting_inputs_fields_terminated_witness :
    ∃ b, buildBlock junkStack (some [112]) none none none none = some b ∧
      (parseField b off_library 32).isSome = true ∧
      (parseField b off_command 32).isSome = true ∧
      (parseField b off_pipe MAX_PATH).isSome = true ∧
      (parseField b (off_argument 0) MAX_PATH).isSome = true ∧
      (parseField b (off_argument 1) MAX_PATH).isSome = true ∧
      (parseField b (off_argument 2) MAX_PATH).isSome = true ∧
      (parseField b (off_argument 3) MAX_PATH).isSome = true :=
  C8_fitting_inputs_fields_terminated (by decide) (by decide) (by decide)
    ⟨by decide, by decide⟩ ⟨by decide, by decide⟩ ⟨by decide, by decide⟩
    ⟨by decide, by decide⟩

/-- Claim C9: an entry point that itself returns 0xffff makes the fully
successful path of execute_remote_attach return exactly the sentinel
ENQUEUE_ERROR — the same value a failed lookup returns — even though the
entry point was called; the exit code cannot distinguish the two. -/
theorem C9_sentinel_collides_with_entry_result :
    (execute_remote_attach opCollide).1 = ENQUEUE_ERROR
    ∧ StubEvent.callEntry [] [] [] [] [112] ∈ (execute_remote_attach opCollide).2
    ∧ (execute_remote_attach opNoModule).1 = ENQUEUE_ERROR := by
  refine ⟨rfl, ?_, rfl⟩
  simp [execute_remote_attach, opCollide]

/-- Claim C10: the pipe is copied into the block unconditionally with no NULL
guard, so a NULL pipe makes allocate_remote_argument undefined (none in this
embedding) for every environment and every choice of the four optional
arguments, while with a non-NULL pipe the same call is well-defined. -/
theorem C10_null_pipe_is_undefined :
    (∀ env proc init a0 a1 a2 a3,
      allocate_remote_argument env proc init none a0 a1 a2 a3 = none)
    ∧ (allocate_remote_argument ⟨some 4096, true⟩ 4660 junkStack
        (some [112]) none none none none).isSome = true := by
  constructor
  · intro env proc init a0 a1 a2 a3
    simp only [allocate_remote_argument, buildBlock]
    cases h1 : strcpyAt init off_library libraryString with
    | none => rfl
    | some b1 =>
      rw [Option.some_bind]
      cases h2 : strcpyAt b1 off_command commandString with
      | none => rfl
      | some b2 => rfl
  · decide
